import Mathlib

/-!
Verification of the request-to-outcome mapping layer of the YouTube
transcript HTTP service (src/main.py).

The external collaborator (the youtube-transcript-api library) is modelled
as an oracle fixing the outcome each of its two capabilities would produce
for the request at hand.  The two route handlers are embedded as pure
functions from the request input and the oracle to a pair of the handler
outcome and the trace of external calls issued.

Exception semantics of the source, reflected in the embedding of
get_transcript (src/main.py lines 74-108):
the outer try block (line 85) is guarded by three except clauses, for
NoTranscriptFound, TranscriptsDisabled and Exception.  Inside the
NoTranscriptFound handler a second, inner try (lines 91-102) issues the
enrichment listing call; its only except clause catches
TranscriptsDisabled.  An exception raised inside an except handler is not
caught by the sibling except clauses of the same try statement, so a
non-Disabled failure of the enrichment call leaves the handler uncaught;
this is modelled by the escaped outcome.  An HTTPException raised by the
handler is converted by the framework into a response with the given
status and a JSON body holding the single detail string.
-/

/-- One captioned unit returned by the external collaborator.  The handler
passes segments through verbatim and never inspects the fields, so the
floating-point second offsets of the source are represented as rationals;
this is faithful because the core performs no arithmetic on them. -/
structure TranscriptSegment where
  text : String
  start : Rat
  duration : Rat
deriving DecidableEq

/-- Metadata of one available transcript, with exactly the four fields the
listing endpoint projects out (src/main.py lines 120-128). -/
structure TranscriptDescriptor where
  language : String
  language_code : String
  is_generated : Bool
  is_translatable : Bool
deriving DecidableEq

/-- Failure signals of the external get transcript capability:
NoTranscriptFound, TranscriptsDisabled, or any other exception carrying its
textual description. -/
inductive FetchErr where
  | noTranscriptFound : FetchErr
  | transcriptsDisabled : FetchErr
  | other : String → FetchErr
deriving DecidableEq

/-- Failure signals of the external list transcripts capability:
TranscriptsDisabled, or any other exception carrying its textual
description. -/
inductive ListErr where
  | transcriptsDisabled : ListErr
  | other : String → ListErr
deriving DecidableEq

/-- The external collaborator's behaviour for one request: the outcome its
get transcript call would produce, and the outcome its list transcripts
call would produce. -/
structure Oracle where
  fetchResult : Except FetchErr (List TranscriptSegment)
  listResult : Except ListErr (List TranscriptDescriptor)

/-- Structured JSON bodies of the two success responses. -/
inductive Body where
  | transcriptBody : (video_id : String) → (transcript : List TranscriptSegment) → Body
  | listingBody : (video_id : String) → (available : List TranscriptDescriptor) → Body
deriving DecidableEq

/-- Result of running a route handler: a 200 response with a structured
body, an HTTPException converted by the framework to a status plus a JSON
object with the single detail string, or an exception escaping the handler
uncaught. -/
inductive HandlerOutcome where
  | ok : Body → HandlerOutcome
  | httpError : (status : Nat) → (detail : String) → HandlerOutcome
  | escaped : (description : String) → HandlerOutcome
deriving DecidableEq

/-- One call to the external collaborator, with the arguments passed. -/
inductive ExtCall where
  | fetchCall : (video_id : String) → (languages : List String) → ExtCall
  | listCall : (video_id : String) → ExtCall
deriving DecidableEq

/-- A single-quote character, kept out of string literals. -/
def squote : String := String.singleton (Char.ofNat 39)

/-- The comma-space join used by the source's detail messages. -/
def joinComma (xs : List String) : String := String.intercalate ", " xs

/-- Detail string of the 403 responses (src/main.py lines 102, 105, 133). -/
def disabledDetail (video_id : String) : String :=
  "Transcripts are disabled for video " ++ squote ++ video_id ++ squote ++ "."

/-- Detail string of the enriched 404 response (src/main.py lines 94-97). -/
def notFoundDetail (languages availableCodes : List String) : String :=
  "Could not find a transcript in the requested languages: " ++ joinComma languages ++
    ". Available languages are: " ++ joinComma availableCodes

/-- Detail string of the 500 responses (src/main.py lines 108, 136). -/
def unexpectedDetail (msg : String) : String :=
  "An unexpected error occurred: " ++ msg

/-- Embedding of the get_transcript route handler (src/main.py lines
74-108).  The fetch call is always issued; on NoTranscriptFound the
enrichment listing call is issued, and its outcome decides between the
enriched 404, the 403 for TranscriptsDisabled, and an uncaught escape for
any other failure (the inner try catches only TranscriptsDisabled, and the
outer except clauses do not apply to code running inside an except
handler). -/
def get_transcript (video_id : String) (languages : List String) (o : Oracle) :
    HandlerOutcome × List ExtCall :=
  match o.fetchResult with
  | Except.ok segs =>
      (HandlerOutcome.ok (Body.transcriptBody video_id segs),
       [ExtCall.fetchCall video_id languages])
  | Except.error FetchErr.noTranscriptFound =>
      (match o.listResult with
       | Except.ok ts =>
           HandlerOutcome.httpError 404
             (notFoundDetail languages (ts.map TranscriptDescriptor.language_code))
       | Except.error ListErr.transcriptsDisabled =>
           HandlerOutcome.httpError 403 (disabledDetail video_id)
       | Except.error (ListErr.other msg) =>
           HandlerOutcome.escaped msg,
       [ExtCall.fetchCall video_id languages, ExtCall.listCall video_id])
  | Except.error FetchErr.transcriptsDisabled =>
      (HandlerOutcome.httpError 403 (disabledDetail video_id),
       [ExtCall.fetchCall video_id languages])
  | Except.error (FetchErr.other msg) =>
      (HandlerOutcome.httpError 500 (unexpectedDetail msg),
       [ExtCall.fetchCall video_id languages])

/-- Embedding of the list_transcripts route handler (src/main.py lines
110-136).  On success each underlying transcript object is projected to
the four serialisable fields; TranscriptsDisabled maps to 403 and any
other failure to 500, both with a detail string. -/
def list_transcripts (video_id : String) (o : Oracle) :
    HandlerOutcome × List ExtCall :=
  match o.listResult with
  | Except.ok ts =>
      (HandlerOutcome.ok (Body.listingBody video_id
        (ts.map fun t => ⟨t.language, t.language_code, t.is_generated, t.is_translatable⟩)),
       [ExtCall.listCall video_id])
  | Except.error ListErr.transcriptsDisabled =>
      (HandlerOutcome.httpError 403 (disabledDetail video_id),
       [ExtCall.listCall video_id])
  | Except.error (ListErr.other msg) =>
      (HandlerOutcome.httpError 500 (unexpectedDetail msg),
       [ExtCall.listCall video_id])

/-- The query binding of the languages parameter (src/main.py line 77): an
omitted parameter, i.e. an empty list of provided query values, is
replaced by the default list holding "en"; otherwise the provided values
are passed through unchanged. -/
def languagesQueryOrDefault (given : List String) : List String :=
  match given with
  | [] => ["en"]
  | l => l

/-- The fetch endpoint as reachable over HTTP: the query binding composed
with the route handler. -/
def get_transcript_endpoint (video_id : String) (queryLanguages : List String)
    (o : Oracle) : HandlerOutcome × List ExtCall :=
  get_transcript video_id (languagesQueryOrDefault queryLanguages) o

/-- The HTTP status of an outcome, none when the handler produced no
response of its own because an exception escaped it. -/
def statusOf : HandlerOutcome → Option Nat
  | HandlerOutcome.ok _ => some 200
  | HandlerOutcome.httpError s _ => some s
  | HandlerOutcome.escaped _ => none

/-- Whether the handler itself produced an HTTP response (a body or an
HTTPException), as opposed to letting an exception escape. -/
def isHttpResponse : HandlerOutcome → Bool
  | HandlerOutcome.escaped _ => false
  | _ => true

/-- Recogniser for fetch calls in a trace. -/
def ExtCall.isFetch : ExtCall → Bool
  | ExtCall.fetchCall _ _ => true
  | _ => false

/-- Recogniser for listing calls in a trace. -/
def ExtCall.isList : ExtCall → Bool
  | ExtCall.listCall _ => true
  | _ => false

/-- Whether the oracle's fetch outcome is the NoTranscriptFound failure. -/
def fetchWasNotFound (o : Oracle) : Bool :=
  match o.fetchResult with
  | Except.error FetchErr.noTranscriptFound => true
  | _ => false

/-- Helper: the trace of a fetch request is always the fetch call with the
given arguments, followed by the listing call exactly when the fetch
failed with NoTranscriptFound. -/
theorem get_transcript_trace_eq (video_id : String) (languages : List String)
    (o : Oracle) :
    (get_transcript video_id languages o).2 =
      ExtCall.fetchCall video_id languages ::
        cond (fetchWasNotFound o) [ExtCall.listCall video_id] [] := by
  obtain ⟨fr, lr⟩ := o
  cases fr with
  | ok segs => rfl
  | error e =>
    cases e with
    | noTranscriptFound =>
      cases lr with
      | ok ts => rfl
      | error le => cases le <;> rfl
    | transcriptsDisabled => rfl
    | other m => rfl

/-- Helper: the first external call of a fetch request is the fetch call
with the given video id and language list. -/
theorem get_transcript_trace_head (video_id : String) (languages : List String)
    (o : Oracle) :
    (get_transcript video_id languages o).2.head? =
      some (ExtCall.fetchCall video_id languages) := by
  rw [get_transcript_trace_eq]
  rfl

/-- Claim C1, counterexample: with a NotFound fetch followed by a
non-Disabled enrichment failure, fetch-transcript does not respond 404;
the enrichment exception escapes the handler uncaught, so the handler
produces no status at all (the hosting framework then emits its generic
500). -/
theorem enrichment_other_escapes_cex :
    (get_transcript "abc" ["en"]
        ⟨Except.error FetchErr.noTranscriptFound,
         Except.error (ListErr.other "network down")⟩).1
      = HandlerOutcome.escaped "network down" ∧
    statusOf (get_transcript "abc" ["en"]
        ⟨Except.error FetchErr.noTranscriptFound,
         Except.error (ListErr.other "network down")⟩).1 = none :=
  ⟨rfl, rfl⟩

/-- Claim C1, amended: when the initial fetch fails with NotFound and the
enrichment listing call then fails with any non-Disabled failure, the
failure escapes the fetch-transcript handler uncaught; the 404 response
naming the requested languages is produced only when the enrichment
listing succeeds, and it then always carries the available-languages
clause. -/
theorem enrichment_other_escapes (video_id : String) (languages : List String)
    (msg : String) :
    get_transcript video_id languages
        ⟨Except.error FetchErr.noTranscriptFound, Except.error (ListErr.other msg)⟩
      = (HandlerOutcome.escaped msg,
         [ExtCall.fetchCall video_id languages, ExtCall.listCall video_id]) :=
  rfl

/-- Claim C2, counterexample: an external failure can propagate past the
request-handling boundary: a non-Disabled failure of the enrichment
listing call after a NotFound fetch leaves the fetch-transcript handler
without any HTTP response of its own. -/
theorem boundary_escape_cex :
    isHttpResponse (get_transcript "vid2" ["en", "es"]
        ⟨Except.error FetchErr.noTranscriptFound,
         Except.error (ListErr.other "boom")⟩).1 = false ∧
    (get_transcript "vid2" ["en", "es"]
        ⟨Except.error FetchErr.noTranscriptFound,
         Except.error (ListErr.other "boom")⟩).1
      = HandlerOutcome.escaped "boom" :=
  ⟨rfl, rfl⟩

/-- Claim C2, amended: every failure of the initial fetch call, a Disabled
failure of the enrichment listing call, a successful enrichment listing,
and every failure inside list-transcripts are all converted at the handler
boundary into an HTTP response carrying a single detail string; the one
exception is a non-Disabled failure of the enrichment listing call in
fetch-transcript, which escapes the handler uncaught. -/
theorem failure_response_boundary (video_id : String) (languages : List String)
    (msg : String) (ts : List TranscriptDescriptor)
    (lr : Except ListErr (List TranscriptDescriptor)) (o : Oracle) :
    isHttpResponse (get_transcript video_id languages
        ⟨Except.error FetchErr.transcriptsDisabled, lr⟩).1 = true ∧
    isHttpResponse (get_transcript video_id languages
        ⟨Except.error (FetchErr.other msg), lr⟩).1 = true ∧
    isHttpResponse (get_transcript video_id languages
        ⟨Except.error FetchErr.noTranscriptFound, Except.ok ts⟩).1 = true ∧
    isHttpResponse (get_transcript video_id languages
        ⟨Except.error FetchErr.noTranscriptFound,
         Except.error ListErr.transcriptsDisabled⟩).1 = true ∧
    isHttpResponse (list_transcripts video_id o).1 = true ∧
    isHttpResponse (get_transcript video_id languages
        ⟨Except.error FetchErr.noTranscriptFound,
         Except.error (ListErr.other msg)⟩).1 = false := by
  refine ⟨rfl, rfl, rfl, rfl, ?_, rfl⟩
  obtain ⟨fr, lr2⟩ := o
  cases lr2 with
  | ok ts2 => rfl
  | error le => cases le <;> rfl

/-- Claim C3: whenever the external collaborator reports TranscriptsDisabled
(on the initial fetch, on the enrichment listing after a NotFound fetch,
or on the listing endpoint), the handler responds 403 with the exact
detail string naming the video id between single quotes. -/
theorem disabled_yields_403 (video_id : String) (languages : List String)
    (lr : Except ListErr (List TranscriptDescriptor))
    (fr : Except FetchErr (List TranscriptSegment)) :
    (get_transcript video_id languages
        ⟨Except.error FetchErr.transcriptsDisabled, lr⟩).1
      = HandlerOutcome.httpError 403 (disabledDetail video_id) ∧
    (get_transcript video_id languages
        ⟨Except.error FetchErr.noTranscriptFound,
         Except.error ListErr.transcriptsDisabled⟩).1
      = HandlerOutcome.httpError 403 (disabledDetail video_id) ∧
    (list_transcripts video_id ⟨fr, Except.error ListErr.transcriptsDisabled⟩).1
      = HandlerOutcome.httpError 403 (disabledDetail video_id) ∧
    disabledDetail video_id
      = "Transcripts are disabled for video " ++ squote ++ video_id ++ squote ++ "." :=
  ⟨rfl, rfl, rfl, rfl⟩

/-- Claim C4: when the external fetch succeeds with a sequence of segments,
fetch-transcript responds 200 with the video id and the segment sequence
passed through verbatim, after exactly one external call. -/
theorem fetch_success_passthrough (video_id : String) (languages : List String)
    (segs : List TranscriptSegment)
    (lr : Except ListErr (List TranscriptDescriptor)) :
    get_transcript video_id languages ⟨Except.ok segs, lr⟩
      = (HandlerOutcome.ok (Body.transcriptBody video_id segs),
         [ExtCall.fetchCall video_id languages]) :=
  rfl

/-- Claim C5: when the fetch fails with NotFound and the enrichment listing
succeeds with a non-empty sequence of transcripts, fetch-transcript
responds 404 and the detail names the requested languages and then the
language codes of the listed transcripts, each contributed exactly once in
enumeration order via the comma join of the code projection. -/
theorem notFound_listing_404_codes (video_id : String) (languages : List String)
    (ts : List TranscriptDescriptor) (_h : ts ≠ []) :
    get_transcript video_id languages
        ⟨Except.error FetchErr.noTranscriptFound, Except.ok ts⟩
      = (HandlerOutcome.httpError 404
           (notFoundDetail languages (ts.map TranscriptDescriptor.language_code)),
         [ExtCall.fetchCall video_id languages, ExtCall.listCall video_id]) :=
  rfl

/-- Witness for claim C5 at a concrete two-transcript listing. -/
theorem notFound_listing_404_codes_witness :
    (([⟨"English", "en", false, true⟩, ⟨"Spanish", "es", true, false⟩] :
        List TranscriptDescriptor) ≠ []) ∧
    get_transcript "w5" ["fr", "de"]
        ⟨Except.error FetchErr.noTranscriptFound,
         Except.ok [⟨"English", "en", false, true⟩, ⟨"Spanish", "es", true, false⟩]⟩
      = (HandlerOutcome.httpError 404
           (notFoundDetail ["fr", "de"]
             (([⟨"English", "en", false, true⟩, ⟨"Spanish", "es", true, false⟩] :
                 List TranscriptDescriptor).map TranscriptDescriptor.language_code)),
         [ExtCall.fetchCall "w5" ["fr", "de"], ExtCall.listCall "w5"]) :=
  ⟨by decide, notFound_listing_404_codes "w5" ["fr", "de"] _ (by decide)⟩

/-- Claim C6: for every oracle outcome, the external fetch call of
fetch-transcript receives the language preference exactly as given: the
first trace entry is the fetch call carrying the very same list, with no
reordering and no deduplication. -/
theorem languages_passed_verbatim (video_id : String) (languages : List String)
    (o : Oracle) :
    (get_transcript video_id languages o).2.head?
      = some (ExtCall.fetchCall video_id languages) :=
  get_transcript_trace_head video_id languages o

/-- Claim C7, counterexample: a handler-level empty language list is not
rejected: the handler issues the external fetch call with the empty list
and, when the fetch succeeds, responds 200. -/
theorem empty_languages_not_rejected_cex :
    get_transcript "vid7" []
        ⟨Except.ok [⟨"hello", 0, 1⟩], Except.ok []⟩
      = (HandlerOutcome.ok (Body.transcriptBody "vid7" [⟨"hello", 0, 1⟩]),
         [ExtCall.fetchCall "vid7" []]) :=
  rfl

/-- Claim C7, amended: the handler contains no empty-list rejection and
forwards whatever list it is bound to; over the HTTP query layer, however,
an omitted languages parameter is replaced by the default list holding
"en", so the list passed to the external fetch by the endpoint is never
empty. -/
theorem endpoint_fetch_languages_nonempty (video_id : String)
    (queryLanguages : List String) (o : Oracle) :
    (get_transcript_endpoint video_id queryLanguages o).2.head?
      = some (ExtCall.fetchCall video_id (languagesQueryOrDefault queryLanguages)) ∧
    (languagesQueryOrDefault queryLanguages).isEmpty = false := by
  refine ⟨get_transcript_trace_head video_id (languagesQueryOrDefault queryLanguages) o, ?_⟩
  cases queryLanguages <;> rfl

/-- Claim C8: a single fetch-transcript request issues at most two external
calls: exactly one fetch call, and at most one listing call, the listing
call appearing exactly when the fetch outcome was the NotFound failure. -/
theorem at_most_two_external_calls (video_id : String) (languages : List String)
    (o : Oracle) :
    (get_transcript video_id languages o).2.length ≤ 2 ∧
    (get_transcript video_id languages o).2.countP ExtCall.isFetch = 1 ∧
    (get_transcript video_id languages o).2.countP ExtCall.isList
      = cond (fetchWasNotFound o) 1 0 := by
  obtain ⟨fr, lr⟩ := o
  cases fr with
  | ok segs => exact ⟨by show (1 : Nat) ≤ 2; decide, rfl, rfl⟩
  | error e =>
    cases e with
    | noTranscriptFound =>
      cases lr with
      | ok ts => exact ⟨by show (2 : Nat) ≤ 2; decide, rfl, rfl⟩
      | error le =>
        cases le with
        | transcriptsDisabled => exact ⟨by show (2 : Nat) ≤ 2; decide, rfl, rfl⟩
        | other m => exact ⟨by show (2 : Nat) ≤ 2; decide, rfl, rfl⟩
    | transcriptsDisabled => exact ⟨by show (1 : Nat) ≤ 2; decide, rfl, rfl⟩
    | other m => exact ⟨by show (1 : Nat) ≤ 2; decide, rfl, rfl⟩

/-- Claim C9: the handler is a pure function of the request input and the
external outcomes: two executions with identical inputs in which the
collaborator returns identical outcomes produce identical responses and
identical call traces. -/
theorem identical_outcomes_identical_responses (video_id : String)
    (languages : List String) (o1 o2 : Oracle)
    (hf : o1.fetchResult = o2.fetchResult) (hl : o1.listResult = o2.listResult) :
    get_transcript video_id languages o1 = get_transcript video_id languages o2 := by
  obtain ⟨fr1, lr1⟩ := o1
  obtain ⟨fr2, lr2⟩ := o2
  cases hf
  cases hl
  rfl

/-- Witness for claim C9 at a concrete pair of oracles with equal
outcomes. -/
theorem identical_outcomes_identical_responses_witness :
    get_transcript "w9" ["en"] ⟨Except.ok [], Except.ok []⟩
      = get_transcript "w9" ["en"] ⟨Except.ok ([] ++ []), Except.ok []⟩ :=
  identical_outcomes_identical_responses "w9" ["en"] _ _ rfl rfl

/-- Claim C10: when the external listing succeeds with an empty
enumeration, list-transcripts responds 200 with the video id and an empty
available-transcripts list, not an error. -/
theorem empty_listing_200 (video_id : String)
    (fr : Except FetchErr (List TranscriptSegment)) :
    list_transcripts video_id ⟨fr, Except.ok []⟩
      = (HandlerOutcome.ok (Body.listingBody video_id []),
         [ExtCall.listCall video_id]) :=
  rfl
